import Mathlib

/-!
Verification of the media-generation and bulk-export core of the
photobooth service, as a shallow embedding of the JavaScript sources
(`backend/src/routes/photos.js`, `backend/src/services/ai.js`,
`services/imageProcessor.js`, `services/gif.js`) into Lean.

Image buffers are modelled as `List Nat` (byte lists); the sharp
pipeline steps (resize, composite) that the claims mention are modelled
as constructors of a syntax tree `ImageTree`, so "byte-identical" is
equality of trees.
-/

/-- Raw image bytes, as produced and consumed by the node `Buffer` API. -/
abbrev Bytes := List Nat

/-- XML escaping used before embedding text into SVG overlays
(`escapeXml` in `services/imageProcessor.js`): replaces, in order,
ampersand, angle brackets, double quote and apostrophe. -/
def escapeXml (text : String) : String :=
  ((((text.replace "&" "&amp;").replace "<" "&lt;").replace ">" "&gt;").replace
    "\"" "&quot;").replace "\x27" "&apos;"

/-- JS `String.prototype.trim`: strip whitespace from both ends,
written structurally over the character list so it evaluates by
`decide`/`rfl`. -/
def jsTrim (s : String) : String :=
  String.mk (((s.toList.dropWhile Char.isWhitespace).reverse.dropWhile
    Char.isWhitespace).reverse)

/-- The BrandingSpec record as read from the event row.  Fields that may be
absent in the JSON object are `Option`s (`none` models JS `undefined`). -/
structure Branding where
  overlayText : Option String := none
  logoUrl : Option String := none
  primaryColor : Option String := none
  secondaryColor : Option String := none
  footerText : Option String := none
  showDate : Option Bool := none
  template : Option String := none
  eventName : Option String := none
deriving DecidableEq, Repr

/-- Visible-branding gate from `photos.js` (`hasBrandingContent`):
`footerText`/`overlayText` must be non-empty after trim, `showDate`
must be strictly `=== true`; a null/undefined branding has no content. -/
def hasBrandingContent : Option Branding → Bool
  | none => false
  | some branding =>
    let hasFooter := (jsTrim (branding.footerText.getD "") ≠ "" : Bool)
    let hasOverlay := (jsTrim (branding.overlayText.getD "") ≠ "" : Bool)
    let hasDate := branding.showDate = some true
    hasFooter || hasOverlay || hasDate

/-- One SVG overlay pushed by `applyBrandingOverlay`: either the footer
band (semi-opaque bar with main text and optional small date line) or
the top watermark strip. -/
inductive Overlay where
  | footerBand (width fHeight : Nat) (displayText : String) (subDate : Option String)
      (primary secondary : String) (top : Nat)
  | watermark (width : Nat) (text : String)
deriving DecidableEq, Repr

/-- Images as a tree of the sharp pipeline operations the routes apply. -/
inductive ImageTree where
  | source (b : Bytes)
  | resizedJpeg (base : ImageTree) (w h q : Nat)
  | composited (base : ImageTree) (ovs : List Overlay) (q : Nat)
deriving DecidableEq, Repr

/-- Rounding of `height * 0.08` (`Math.round` over a non-negative value),
expressed over naturals: `⌊(8h + 50) / 100⌋`. -/
def footerHeightOf (height : Nat) : Nat := (8 * height + 50) / 100

/-- The overlay list built by `applyBrandingOverlay`
(`services/imageProcessor.js` lines 24–81).  Destructuring defaults are
those of the source: `overlayText = ''`, `footerText = ''`,
`showDate = true` (note: `true`, not `false`, when the field is absent),
`primaryColor = '#ffffff'`, `secondaryColor = '#000000'`.
`today` stands for `new Date().toLocaleDateString(...)`. -/
def brandingOverlays (br : Branding) (width height : Nat) (today : String) : List Overlay :=
  let overlayText := br.overlayText.getD ""
  let footerText := br.footerText.getD ""
  let showDate := br.showDate.getD true
  let primaryColor := br.primaryColor.getD "#ffffff"
  let secondaryColor := br.secondaryColor.getD "#000000"
  let footerPart : List Overlay :=
    if footerText ≠ "" || showDate then
      let fHeight := footerHeightOf height
      let dateStr := if showDate then today else ""
      let displayText := if footerText ≠ "" then footerText else dateStr
      let subDate := if dateStr ≠ "" && footerText ≠ "" then some (escapeXml dateStr) else none
      [Overlay.footerBand width fHeight (escapeXml displayText) subDate
        primaryColor secondaryColor (height - fHeight)]
    else []
  let watermarkPart : List Overlay :=
    if overlayText ≠ "" then [Overlay.watermark width (escapeXml overlayText)] else []
  footerPart ++ watermarkPart

/-- `applyBrandingOverlay`: if no overlay was built the input buffer is
returned unchanged (line 83 of `imageProcessor.js`), otherwise the
photo is composited with the overlays and re-encoded at quality 96. -/
def applyBrandingOverlay (photo : ImageTree) (br : Branding) (width height : Nat)
    (today : String) : ImageTree :=
  let ovs := brandingOverlays br width height today
  if ovs.isEmpty then photo else .composited photo ovs 96

/-- The branding step of `POST /api/photos/upload` (`photos.js` lines
48–53): the overlay is applied only when a branding object exists and
`hasBrandingContent` accepts it; otherwise the resized buffer passes
through untouched. -/
def uploadBrandingStage (resized : ImageTree) (branding : Option Branding)
    (width height : Nat) (today : String) : ImageTree :=
  match branding with
  | some br =>
    if hasBrandingContent (some br) then applyBrandingOverlay resized br width height today
    else resized
  | none => resized

/-- Whether an overlay is the footer band. -/
def isFooterOverlay : Overlay → Bool
  | .footerBand .. => true
  | .watermark .. => false

/-- Whether a footer band appears anywhere in an image's pipeline tree. -/
def footerBandIn : ImageTree → Bool
  | .source _ => false
  | .resizedJpeg base _ _ _ => footerBandIn base
  | .composited base ovs _ => ovs.any isFooterOverlay || footerBandIn base

/-- Output of `createPhotoStrip` (`services/imageProcessor.js` lines
93–141): a fixed-width canvas whose SVG base carries the header/footer
text, plus the positions and (resized) frames actually composited. -/
structure StripSpec where
  width : Nat
  height : Nat
  bgColor : String
  headerText : String
  footerLine : String
  slots : List (Nat × Nat)
  frames : List Bytes
deriving DecidableEq, Repr

/-- The strip composer.  Constants are those of the source
(`stripWidth = 640`, `photoHeight = 480`, `padding = 20`,
`headerHeight = footerHeight = 80`).  The canvas height is computed
from the FULL input length (`photos.length`), while the composite loop
runs only while `i < photos.length && i < 4`, so only the first four
frames get a slot.  `today` stands for `new Date().toLocaleDateString()`. -/
def createPhotoStrip (photos : List Bytes) (br : Branding) (today : String) : StripSpec :=
  let stripWidth := 640
  let photoHeight := 480
  let padding := 20
  let headerHeight := 80
  let footerHeight := 80
  let n := photos.length
  let stripHeight := photoHeight * n + padding * (n + 1) + headerHeight + footerHeight
  let primaryColor := (br.primaryColor.getD "#1a1a2e")
  let eventName := (br.eventName.getD "SnapBooth")
  let footerText := (br.footerText.getD "")
  { width := stripWidth
    height := stripHeight
    bgColor := primaryColor
    headerText := escapeXml eventName.toUpper
    footerLine := escapeXml (if footerText ≠ "" then footerText else today)
    slots := (List.range (min n 4)).map
      (fun i => (headerHeight + padding + i * (photoHeight + padding), padding))
    frames := photos.take 4 }

/-- GIF encoder options (`createGIF`'s `options` object); `none` models
an absent property, so the source's destructuring defaults apply. -/
structure GifOptions where
  fps : Option Nat := none
  width : Option Nat := none
  loop : Option Nat := none
  quality : Option Nat := none
deriving DecidableEq, Repr

/-- What `createGIF` (`services/gif.js` lines 202–248) hands to the
ffmpeg palette pipeline: the ordered frame list and the effective
fps/width/loop/quality after defaulting (`fps = 4`, `width = 800`,
`loop = 0` i.e. infinite, `quality = 85`). -/
structure EncodeSpec where
  frames : List Bytes
  fps : Nat
  width : Nat
  loop : Nat
  quality : Nat
deriving DecidableEq, Repr

/-- The encoding facet of `createGIF`: resolve option defaults and pass
the frame list, in order, to the single ffmpeg encode invocation. -/
def createGIFSpec (frames : List Bytes) (opts : GifOptions) : EncodeSpec :=
  { frames := frames
    fps := opts.fps.getD 4
    width := opts.width.getD 800
    loop := opts.loop.getD 0
    quality := opts.quality.getD 85 }

/-- The boomerang frame-list transform (`services/gif.js` line 257):
`[...imageBuffers, ...[...imageBuffers].reverse()]`. -/
def boomerangFrames (frames : List Bytes) : List Bytes :=
  frames ++ frames.reverse

/-- `createBoomerang` (`services/gif.js` lines 255–259): the transformed
frame list is fed to the very same `createGIF`, with `fps` forced to 8
over whatever the caller passed. -/
def createBoomerang (frames : List Bytes) (opts : GifOptions) : EncodeSpec :=
  createGIFSpec (boomerangFrames frames) { opts with fps := some 8 }

/-- Zero-padded frame index (`String(i).padStart(3, '0')`). -/
def pad3 (i : Nat) : String :=
  if i < 10 then "00" ++ toString i
  else if i < 100 then "0" ++ toString i
  else toString i

/-- Path of the i-th intermediate frame file inside the scratch dir. -/
def framePath (tmpDir : String) (i : Nat) : String :=
  tmpDir ++ "/frame_" ++ pad3 i ++ ".jpg"

/-- `fs.rmSync(tmpDir, { recursive: true, force: true })`: the scratch
directory and every path under it disappear from the filesystem. -/
def cleanupDir (tmpDir : String) (fs : List String) : List String :=
  fs.filter (fun p => !(tmpDir.isPrefixOf p))

/-- The frame-saving loop of `createGIF`: each `sharp(...).toFile` either
creates the frame file or throws (the `save` oracle says which); a throw
aborts the loop with an exception. -/
def writeFrames (save : Nat → Bool) (tmpDir : String) :
    List Bytes → Nat → List String → Except String Unit × List String
  | [], _, fs => (.ok (), fs)
  | _ :: rest, i, fs =>
    if save i then writeFrames save tmpDir rest (i + 1) (framePath tmpDir i :: fs)
    else (.error "sharp toFile failed", fs)

/-- The filesystem facet of `createGIF`: make the per-call scratch
directory, run the body (frame saves, ffmpeg encode, result read) under
`try`, and unconditionally `rmSync` the scratch directory in `finally`
on every exit path.  `save` and `encodeOk` are oracles for the body's
possible failures; the pair returned is (outcome, final filesystem). -/
def createGIFRun (save : Nat → Bool) (encodeOk : Bool) (tmpDir : String)
    (frames : List Bytes) (fs : List String) : Except String Unit × List String :=
  let fs1 := tmpDir :: fs
  match writeFrames save tmpDir frames 0 fs1 with
  | (.error e, fs2) => (.error e, cleanupDir tmpDir fs2)
  | (.ok _, fs2) =>
    if encodeOk then
      let fs3 := (tmpDir ++ "/output.gif") :: fs2
      (.ok (), cleanupDir tmpDir fs3)
    else (.error "ffmpeg failed", cleanupDir tmpDir fs2)

/-- Prefix test (`String.prototype.startsWith`), over character lists so
it evaluates in the kernel. -/
def strStartsWith (s pre : String) : Bool := pre.toList.isPrefixOf s.toList

/-- Helper for `strContains`: does `pat` occur in the character list. -/
def containsAux (pat : List Char) : List Char → Bool
  | [] => pat.isEmpty
  | c :: rest => pat.isPrefixOf (c :: rest) || containsAux pat rest

/-- Substring test (`String.prototype.includes`). -/
def strContains (s pat : String) : Bool := containsAux pat.toList s.toList

/-- One HTTP response as observed by `fetchBuffer`: status code,
optional `content-type` and `location` headers, body bytes. -/
structure HttpResponse where
  status : Nat
  contentType : Option String := none
  location : Option String := none
  body : Bytes := []
deriving DecidableEq, Repr

/-- The distinguishable failure reasons `fetchBuffer` can reject with
(each is a distinct `Error` message shape in the source). -/
inductive FetchErr where
  | httpStatus (code : Nat)
  | badContentType (ct : String)
  | connectTimeout
  | responseTimeout
deriving DecidableEq, Repr

instance : DecidableEq (Except FetchErr Bytes) := fun a b =>
  match a, b with
  | .ok x, .ok y =>
    if h : x = y then .isTrue (by rw [h]) else .isFalse (fun hh => h (Except.ok.inj hh))
  | .error x, .error y =>
    if h : x = y then .isTrue (by rw [h]) else .isFalse (fun hh => h (Except.error.inj hh))
  | .ok _, .error _ => .isFalse (fun hh => Except.noConfusion hh)
  | .error _, .ok _ => .isFalse (fun hh => Except.noConfusion hh)

/-- The non-redirect tail of `fetchBuffer`'s validation: reject any
non-2xx status as `HTTP n`; then reject a content-type starting with
`text/` or containing `html`; only then resolve the body bytes. -/
def fetchNoRedirect (resp : HttpResponse) : Except FetchErr Bytes :=
  if resp.status < 200 ∨ 300 ≤ resp.status then .error (.httpStatus resp.status)
  else
    let ct := resp.contentType.getD ""
    if strStartsWith ct "text/" || strContains ct "html" then .error (.badContentType ct)
    else .ok resp.body

/-- `fetchBuffer` (`photos.js` lines 275–334) over a network modelled
as a map from URL to response (timeouts and socket errors are outside
this pure model), with the source's check order: a 3xx response carrying a `Location` header is followed while
redirect budget remains (with budget 0, or without a `Location`, the
3xx falls through to the status check and is rejected as `HTTP n`);
then status and content-type validation as in `fetchNoRedirect`. -/
def fetchBuffer (net : String → HttpResponse) : Nat → String → Except FetchErr Bytes
  | 0, url => fetchNoRedirect (net url)
  | m + 1, url =>
    let resp := net url
    if 300 ≤ resp.status ∧ resp.status < 400 then
      match resp.location with
      | some loc => fetchBuffer net m loc
      | none => .error (.httpStatus resp.status)
    else fetchNoRedirect resp

/-- One row of the `photos` table as selected by the ZIP route
(`select('id, url, mode, created_at')`). -/
structure PhotoRow where
  id : String
  url : String
  mode : String
  createdAt : String
deriving DecidableEq, Repr

/-- Archive entry name (`photos.js` line 174):
`mode_<position>_<first 8 chars of id>.<ext>`, with extension `gif` for
gif/boomerang artifacts and `jpg` otherwise; `i` is the 0-based loop index. -/
def entryName (p : PhotoRow) (i : Nat) : String :=
  let ext := if p.mode = "gif" ∨ p.mode = "boomerang" then "gif" else "jpg"
  p.mode ++ "_" ++ toString (i + 1) ++ "_" ++ (p.id.take 8) ++ "." ++ ext

/-- The per-artifact loop of the ZIP route: fetch each row's URL through
`fetchBuffer`; on success append a named entry, on any fetch failure
log and skip the row (the `try/catch` around lines 171–178). -/
def archiveEntriesFrom (fetch : String → Except FetchErr Bytes) :
    List PhotoRow → Nat → List (String × Bytes)
  | [], _ => []
  | p :: rest, i =>
    match fetch p.url with
    | .ok b => (entryName p i, b) :: archiveEntriesFrom fetch rest (i + 1)
    | .error _ => archiveEntriesFrom fetch rest (i + 1)

/-- Entries of the streamed archive for a photo list, first row at index 0. -/
def archiveEntries (photos : List PhotoRow) (fetch : String → Except FetchErr Bytes) :
    List (String × Bytes) :=
  archiveEntriesFrom fetch photos 0

/-- Whether a row's fetch fails validation. -/
def fetchFails (fetch : String → Except FetchErr Bytes) (p : PhotoRow) : Bool :=
  match fetch p.url with
  | .ok _ => false
  | .error _ => true

/-- Filename sanitisation of the event name
(`replace(/[^a-z0-9]/gi, '_')`). -/
def sanitizeName (s : String) : String :=
  String.mk (s.toList.map (fun c => if c.isAlphanum then c else '_'))

/-- Outcome of `GET /api/photos/event/:eventId/zip`: either a structured
error response produced before any stream is opened, or a committed
streamed archive (headers sent, entries appended, archive finalized). -/
inductive ZipOutcome where
  | errorResponse (status : Nat) (error : String)
  | streamed (filename : String) (entries : List (String × Bytes)) (status : Nat)
deriving DecidableEq, Repr

/-- Whether the outcome committed response headers and opened the
archive stream. -/
def streamOpened : ZipOutcome → Bool
  | .errorResponse .. => false
  | .streamed .. => true

/-- Entries carried by the outcome (an error response writes none). -/
def entriesOf : ZipOutcome → List (String × Bytes)
  | .errorResponse .. => []
  | .streamed _ es _ => es

/-- The ZIP route handler (`photos.js` lines 149–190) over its effective
inputs: the newest-first photo list from the database, the event name,
and the remote fetch.  An empty list returns the structured 404 before
any header is set; otherwise headers are committed, every row is
attempted in order, failures are skipped, and the archive is finalized
with HTTP status 200. -/
def exportArchive (photos : List PhotoRow) (eventName : Option String)
    (fetch : String → Except FetchErr Bytes) : ZipOutcome :=
  if photos.isEmpty then .errorResponse 404 "No photos found"
  else
    .streamed (sanitizeName (eventName.getD "event") ++ "_photos.zip")
      (archiveEntries photos fetch) 200

/-- One entry of the static style table `AI_STYLES`
(`services/ai.js` lines 8–51). -/
structure AIStyle where
  name : String
  emoji : String
  model : String
  prompt : String
  negative : String
deriving DecidableEq, Repr

/-- The `anime` preset (`AI_STYLES.anime`), also the fallback style. -/
def animeStyle : AIStyle :=
  { name := "Anime Art", emoji := "🎌", model := "Linaqruf/anything-v3.0",
    prompt := "anime style illustration, high quality, detailed, vibrant colors",
    negative := "ugly, blurry, low quality" }

/-- The static style table, key by key as in the source. -/
def AI_STYLES : List (String × AIStyle) :=
  [ ("anime", animeStyle),
    ("vintage",
     { name := "Vintage Film", emoji := "📷", model := "runwayml/stable-diffusion-v1-5",
       prompt := "vintage film photography, retro aesthetic, grain, warm tones, 1970s style",
       negative := "modern, digital, sharp, oversaturated" }),
    ("watercolor",
     { name := "Watercolor", emoji := "🎨", model := "runwayml/stable-diffusion-v1-5",
       prompt := "beautiful watercolor painting, artistic, soft colors, paper texture",
       negative := "photo, realistic, digital art" }),
    ("cyberpunk",
     { name := "Cyberpunk", emoji := "🌆", model := "runwayml/stable-diffusion-v1-5",
       prompt := "cyberpunk style, neon lights, futuristic city, dramatic lighting, blade runner aesthetic",
       negative := "natural, daytime, bright" }),
    ("oilpainting",
     { name := "Oil Painting", emoji := "🖼️", model := "runwayml/stable-diffusion-v1-5",
       prompt := "oil painting style, impressionist, brushstrokes, classical art, museum quality",
       negative := "photo, modern, digital" }),
    ("comic",
     { name := "Comic Book", emoji := "💥", model := "ogkalu/comic-shazam",
       prompt := "comic book style, bold outlines, bright colors, halftone dots, action style",
       negative := "realistic, photograph" }) ]

/-- Property lookup `AI_STYLES[styleKey]`. -/
def lookupStyle (key : String) : Option AIStyle :=
  (AI_STYLES.find? (fun p => p.1 = key)).map (fun p => p.2)

/-- `AI_STYLES[styleKey] || AI_STYLES.anime` (`ai.js` line 60): an
unknown key silently falls back to the anime preset, with no
validation error. -/
def selectStyle (key : String) : AIStyle :=
  (lookupStyle key).getD animeStyle

/-- The metadata of `generateAIImage`'s success result (`ai.js` lines
100–105): `style` is the resolved preset's display name, `styleKey` is
the raw key the caller passed, echoed unchanged. -/
structure AIGenMeta where
  style : String
  styleKey : String
deriving DecidableEq, Repr

/-- Success-result metadata as assembled by `generateAIImage`. -/
def genResultMeta (styleKey : String) : AIGenMeta :=
  { style := (selectStyle styleKey).name, styleKey := styleKey }

/-- The upstream HTTP outcome of one `axios.post` to the model endpoint:
either image bytes, or an error with an optional status code and an
optional `x-wait-estimated-time` header. -/
inductive HFResp where
  | ok (img : Bytes)
  | err (status : Option Nat) (waitEstimate : Option Nat) (msg : String)
deriving DecidableEq, Repr

/-- What one attempt reports to the caller of `generateAIImage`. -/
inductive AIAttempt where
  | success (img : Bytes)
  | loading (waitSec : Nat)
  | failure (msg : String)
deriving DecidableEq, Repr

/-- Error interpretation of `generateAIImage` (`ai.js` lines 106–113):
an upstream 503 becomes the transient `MODEL_LOADING:<wait>` signal
(wait defaulting to 30), any other error a hard
`AI generation failed` error. -/
def generateAIImage (r : HFResp) : AIAttempt :=
  match r with
  | .ok img => .success img
  | .err (some 503) w _ => .loading (w.getD 30)
  | .err _ _ m => .failure ("AI generation failed: " ++ m)

/-- Terminal states of the restyle retry state machine of spec §4.4. -/
inductive RestyleOutcome where
  | done (img : Bytes)
  | unavailable
  | failed (msg : String)
deriving DecidableEq, Repr

/-- Modelled from the spec: the retry driver of the restyle route
(`backend/src/routes/ai.js`, required by `index.js` but absent from the
sources; only `generateAIImage` is present).  Spec §4.4: `ATTEMPT →
DONE` on success, `ATTEMPT → WAIT(n) → ATTEMPT` on the transient
loading signal up to a fixed retry ceiling, `ATTEMPT → FAILED` on any
other error, and exhausting the ceiling ends in the distinct
`UNAVAILABLE` state.  `upstream i` is the endpoint's response to the
i-th attempt; the result pairs the outcome with the number of attempts
made. -/
def restyleGo (upstream : Nat → HFResp) : Nat → Nat → RestyleOutcome × Nat
  | i, 0 => (.unavailable, i)
  | i, rem + 1 =>
    match generateAIImage (upstream i) with
    | .success img => (.done img, i + 1)
    | .failure msg => (.failed msg, i + 1)
    | .loading _ => restyleGo upstream (i + 1) rem

/-- Modelled from the spec: `restyle` with a configured retry ceiling,
starting at attempt 0. -/
def restyleRun (upstream : Nat → HFResp) (ceiling : Nat) : RestyleOutcome × Nat :=
  restyleGo upstream 0 ceiling

lemma archiveEntriesFrom_length (fetch : String → Except FetchErr Bytes) :
    ∀ (photos : List PhotoRow) (i : Nat),
      (archiveEntriesFrom fetch photos i).length
        + (photos.filter (fetchFails fetch)).length = photos.length := by
  intro photos
  induction photos with
  | nil => intro i; simp [archiveEntriesFrom]
  | cons p rest ih =>
    intro i
    cases h : fetch p.url with
    | ok b =>
      simp [archiveEntriesFrom, h, List.filter, fetchFails]
      have := ih (i + 1)
      omega
    | error e =>
      simp [archiveEntriesFrom, h, List.filter, fetchFails]
      have := ih (i + 1)
      omega

lemma archiveEntriesFrom_sound (fetch : String → Except FetchErr Bytes) :
    ∀ (photos : List PhotoRow) (i : Nat),
      ∀ e ∈ archiveEntriesFrom fetch photos i, ∃ p ∈ photos, fetch p.url = .ok e.2 := by
  intro photos
  induction photos with
  | nil => intro i e he; simp [archiveEntriesFrom] at he
  | cons p rest ih =>
    intro i e he
    cases h : fetch p.url with
    | ok b =>
      simp only [archiveEntriesFrom, h, List.mem_cons] at he
      rcases he with he | he
      · exact ⟨p, List.mem_cons_self p rest, by simp [h, he]⟩
      · obtain ⟨q, hq, hfq⟩ := ih (i + 1) e he
        exact ⟨q, List.mem_cons_of_mem p hq, hfq⟩
    | error err =>
      simp only [archiveEntriesFrom, h] at he
      obtain ⟨q, hq, hfq⟩ := ih (i + 1) e he
      exact ⟨q, List.mem_cons_of_mem p hq, hfq⟩

/-- C1: for an event with M artifacts of which K fail fetch validation,
once the photo list is non-empty the export opens the stream, finishes
with HTTP status 200, streams exactly M − K entries (failed fetches are
skipped without aborting), and every streamed entry's bytes come from a
successfully fetched artifact — no failed fetch contributes bytes. -/
theorem exportArchive_skips_failures (photos : List PhotoRow) (eventName : Option String)
    (fetch : String → Except FetchErr Bytes) (hne : photos ≠ []) :
    exportArchive photos eventName fetch
        = .streamed (sanitizeName (eventName.getD "event") ++ "_photos.zip")
            (archiveEntries photos fetch) 200
      ∧ streamOpened (exportArchive photos eventName fetch) = true
      ∧ (archiveEntries photos fetch).length
          = photos.length - (photos.filter (fetchFails fetch)).length
      ∧ ∀ e ∈ archiveEntries photos fetch, ∃ p ∈ photos, fetch p.url = .ok e.2 := by
  have hempty : photos.isEmpty = false := by
    cases photos with
    | nil => exact absurd rfl hne
    | cons a l => rfl
  refine ⟨?_, ?_, ?_, ?_⟩
  · simp [exportArchive, hempty]
  · simp [exportArchive, hempty, streamOpened]
  · have := archiveEntriesFrom_length fetch photos 0
    unfold archiveEntries
    omega
  · exact archiveEntriesFrom_sound fetch photos 0

/-- Concrete photo list for the C1 witness: two rows, one of which will
fail its fetch. -/
def photosW : List PhotoRow :=
  [ { id := "aaaabbbbcccc", url := "good", mode := "single", createdAt := "t" },
    { id := "ddddeeeeffff", url := "bad", mode := "gif", createdAt := "t" } ]

/-- Concrete fetch for the C1 witness: `good` resolves, `bad` 404s. -/
def fetchW : String → Except FetchErr Bytes :=
  fun u => if u = "good" then .ok [7] else .error (.httpStatus 404)

theorem exportArchive_skips_failures_witness :
    photosW ≠ []
      ∧ (exportArchive photosW (some "My Event!") fetchW
            = .streamed (sanitizeName ((some "My Event!").getD "event") ++ "_photos.zip")
                (archiveEntries photosW fetchW) 200
          ∧ streamOpened (exportArchive photosW (some "My Event!") fetchW) = true
          ∧ (archiveEntries photosW fetchW).length
              = photosW.length - (photosW.filter (fetchFails fetchW)).length
          ∧ ∀ e ∈ archiveEntries photosW fetchW, ∃ p ∈ photosW, fetchW p.url = .ok e.2) :=
  ⟨by decide, exportArchive_skips_failures photosW (some "My Event!") fetchW (by decide)⟩

/-- C3: with zero artifacts the export returns the structured 404
"No photos found" response, the archive stream is never opened (no
headers committed) and no entry bytes are written. -/
theorem exportArchive_empty_404 (eventName : Option String)
    (fetch : String → Except FetchErr Bytes) :
    exportArchive [] eventName fetch = .errorResponse 404 "No photos found"
      ∧ streamOpened (exportArchive [] eventName fetch) = false
      ∧ entriesOf (exportArchive [] eventName fetch) = [] :=
  ⟨rfl, rfl, rfl⟩

/-- C4: a BrandingSpec whose footer text and overlay text are blank
(empty after trim, or absent) and whose show-date flag is explicitly
false fails the visible-content gate, so the branding step of the
upload pipeline returns the resized buffer unchanged — the output is
byte-identical to the resized unbranded input. -/
theorem blank_branding_is_identity (img : ImageTree) (br : Branding)
    (width height : Nat) (today : String)
    (hfooter : jsTrim (br.footerText.getD "") = "")
    (hoverlay : jsTrim (br.overlayText.getD "") = "")
    (hdate : br.showDate = some false) :
    uploadBrandingStage img (some br) width height today = img := by
  have hgate : hasBrandingContent (some br) = false := by
    simp [hasBrandingContent, hfooter, hoverlay, hdate]
  simp [uploadBrandingStage, hgate]

/-- Concrete blank BrandingSpec for the C4 witness. -/
def blankBranding : Branding :=
  { footerText := some " ", overlayText := some "", showDate := some false }

theorem blank_branding_is_identity_witness :
    jsTrim (blankBranding.footerText.getD "") = ""
      ∧ jsTrim (blankBranding.overlayText.getD "") = ""
      ∧ blankBranding.showDate = some false
      ∧ uploadBrandingStage (.source [1, 2]) (some blankBranding) 100 100 "Jan 1"
          = .source [1, 2] :=
  ⟨by decide, by decide, by decide,
    blank_branding_is_identity (.source [1, 2]) blankBranding 100 100 "Jan 1"
      (by decide) (by decide) (by decide)⟩

/-- BrandingSpec that sets only overlay text, leaving show-date absent. -/
def overlayOnlyBranding : Branding := { overlayText := some "X" }

/-- C5 counterexample: a BrandingSpec with only overlay text (show-date
absent) has blank footer text and no explicit show-date, yet the
pipeline renders a footer band, because `applyBrandingOverlay` defaults
an absent `showDate` to `true`. -/
theorem footer_band_despite_unset_showDate :
    footerBandIn (uploadBrandingStage (.source []) (some overlayOnlyBranding) 100 100 "Jan 1")
        = true
      ∧ ¬(jsTrim (overlayOnlyBranding.footerText.getD "") ≠ ""
          ∨ overlayOnlyBranding.showDate = some true) := by
  constructor
  · decide
  · decide

lemma footerBandIn_applyBrandingOverlay (img : ImageTree) (br : Branding)
    (width height : Nat) (today : String) :
    footerBandIn (applyBrandingOverlay img br width height today)
      = ((br.footerText.getD "" ≠ "" || br.showDate.getD true) || footerBandIn img) := by
  unfold applyBrandingOverlay brandingOverlays
  by_cases hf : (br.footerText.getD "" ≠ "" || br.showDate.getD true) = true
  · simp only [hf, if_true]
    simp [footerBandIn, isFooterOverlay]
  · simp only [hf, if_false]
    rcases eq_or_ne (br.overlayText.getD "") "" with ho | ho
    · simp [hf, ho, footerBandIn]
    · simp [hf, ho, footerBandIn, isFooterOverlay]

/-- C5 (amended): given a base image without a footer band, the upload
pipeline renders the footer band iff the branding passes the visible
content gate (`hasBrandingContent`) AND, inside `applyBrandingOverlay`,
the destructured footer text is non-empty or the show-date flag is not
explicitly false — an absent show-date flag defaults to true there, so
a spec with only overlay text does get a footer band. -/
theorem footer_band_condition (img : ImageTree) (br : Branding)
    (width height : Nat) (today : String) (himg : footerBandIn img = false) :
    footerBandIn (uploadBrandingStage img (some br) width height today)
      = (hasBrandingContent (some br)
          && (br.footerText.getD "" ≠ "" || br.showDate.getD true)) := by
  unfold uploadBrandingStage
  cases hg : hasBrandingContent (some br) with
  | false => simp [hg, himg]
  | true => simp [hg, footerBandIn_applyBrandingOverlay, himg]

/-- BrandingSpec with a non-blank footer, for the C5 witness. -/
def footerOnlyBranding : Branding := { footerText := some "Hi" }

theorem footer_band_condition_witness :
    footerBandIn (.source []) = false
      ∧ footerBandIn (uploadBrandingStage (.source []) (some footerOnlyBranding) 100 100 "Jan 1")
          = (hasBrandingContent (some footerOnlyBranding)
              && (footerOnlyBranding.footerText.getD "" ≠ ""
                  || footerOnlyBranding.showDate.getD true)) :=
  ⟨rfl, footer_band_condition (.source []) footerOnlyBranding 100 100 "Jan 1" rfl⟩

/-- A network that answers every URL with a 404 HTML error page. -/
def net404html : String → HttpResponse :=
  fun _ => { status := 404, contentType := some "text/html", body := [1] }

/-- C6 counterexample: a 404 response whose content-type is `text/html`
is rejected for its HTTP status, not with a content-type failure
reason — the content-type check only runs on responses that already
passed the 2xx status check. -/
theorem html_404_rejected_for_status_not_contentType :
    strStartsWith ((net404html "u").contentType.getD "") "text/" = true
      ∧ fetchBuffer net404html 3 "u" = .error (.httpStatus 404)
      ∧ fetchBuffer net404html 3 "u" ≠ .error (.badContentType "text/html") := by
  refine ⟨by decide, by decide, by decide⟩

/-- C6 (amended): every response that reaches the content-type check
with a successful (2xx) status and a content-type starting with
`text/` or containing `html` is rejected with the content-type failure
reason and never resolves to bytes; non-2xx HTML responses are instead
rejected for their status, and in-budget 3xx HTML responses are
followed as redirects. -/
theorem html_contentType_rejected (net : String → HttpResponse)
    (maxRedirects : Nat) (url : String)
    (hlo : 200 ≤ (net url).status) (hhi : (net url).status < 300)
    (hct : (strStartsWith ((net url).contentType.getD "") "text/"
            || strContains ((net url).contentType.getD "") "html") = true) :
    fetchBuffer net maxRedirects url
      = .error (.badContentType ((net url).contentType.getD "")) := by
  have h1 : ¬(300 ≤ (net url).status ∧ (net url).status < 400) := by omega
  have h2 : ¬((net url).status < 200 ∨ 300 ≤ (net url).status) := by omega
  cases maxRedirects with
  | zero => simp [fetchBuffer, fetchNoRedirect, h2, hct]
  | succ m => simp [fetchBuffer, fetchNoRedirect, h1, h2, hct]

/-- A network that answers every URL with a 200 HTML page (a storage
CDN error page served with a success status). -/
def net200html : String → HttpResponse :=
  fun _ => { status := 200, contentType := some "text/html; charset=utf-8", body := [1] }

theorem html_contentType_rejected_witness :
    200 ≤ (net200html "u").status
      ∧ (net200html "u").status < 300
      ∧ (strStartsWith ((net200html "u").contentType.getD "") "text/"
          || strContains ((net200html "u").contentType.getD "") "html") = true
      ∧ fetchBuffer net200html 3 "u"
          = .error (.badContentType ((net200html "u").contentType.getD "")) :=
  ⟨by decide, by decide, by decide,
    html_contentType_rejected net200html 3 "u" (by decide) (by decide) (by decide)⟩

/-- C7: for a non-empty frame list of length N, the boomerang transform
yields exactly the 2N-frame list input ++ reverse(input), with
`frames[N+i] = reverse(input)[i]` for all `i < N`, and feeds it to the
one shared GIF encoder (`createGIF`) at fps 8 — higher than the
encoder's default fps 4 for plain animations — with no separate
encoding path. -/
theorem boomerang_is_forward_reverse (frames : List Bytes) (opts : GifOptions)
    (hne : 1 ≤ frames.length) :
    (createBoomerang frames opts).frames = frames ++ frames.reverse
      ∧ (createBoomerang frames opts).frames.length = 2 * frames.length
      ∧ (∀ i, i < frames.length →
          (createBoomerang frames opts).frames[frames.length + i]?
            = frames.reverse[i]?)
      ∧ createBoomerang frames opts
          = createGIFSpec (boomerangFrames frames) { opts with fps := some 8 }
      ∧ (createBoomerang frames opts).fps = 8
      ∧ (createGIFSpec frames {}).fps = 4 := by
  refine ⟨rfl, ?_, ?_, rfl, rfl, rfl⟩
  · simp [createBoomerang, createGIFSpec, boomerangFrames]
    omega
  · intro i hi
    simp only [createBoomerang, createGIFSpec, boomerangFrames]
    rw [List.getElem?_append_right (by omega)]
    simp

theorem boomerang_is_forward_reverse_witness :
    1 ≤ ([[1], [2], [3]] : List Bytes).length
      ∧ ((createBoomerang [[1], [2], [3]] {}).frames
            = [[1], [2], [3]] ++ [[1], [2], [3]].reverse
          ∧ (createBoomerang [[1], [2], [3]] {}).frames.length
              = 2 * ([[1], [2], [3]] : List Bytes).length
          ∧ (∀ i, i < ([[1], [2], [3]] : List Bytes).length →
              (createBoomerang [[1], [2], [3]] {}).frames[([[1], [2], [3]] : List Bytes).length + i]?
                = ([[1], [2], [3]] : List Bytes).reverse[i]?)
          ∧ createBoomerang [[1], [2], [3]] {}
              = createGIFSpec (boomerangFrames [[1], [2], [3]])
                  { ({} : GifOptions) with fps := some 8 }
          ∧ (createBoomerang [[1], [2], [3]] {}).fps = 8
          ∧ (createGIFSpec [[1], [2], [3]] {}).fps = 4) :=
  ⟨by decide, boomerang_is_forward_reverse [[1], [2], [3]] {} (by decide)⟩

lemma cleanupDir_clean (d : String) (fs : List String) :
    ((cleanupDir d fs).all fun p => !(d.isPrefixOf p)) = true := by
  rw [List.all_eq_true]
  intro p hp
  exact (List.mem_filter.mp hp).2

/-- C8: on every exit path of the GIF encoder — frame save failing
(exception), external encode failing, or full success — the per-call
scratch working directory and every intermediate frame file under it
are gone from the filesystem by the time the call returns (the
`finally` cleanup is unconditional). -/
theorem scratch_dir_removed_on_every_exit (save : Nat → Bool) (encodeOk : Bool)
    (tmpDir : String) (frames : List Bytes) (fs : List String) :
    (((createGIFRun save encodeOk tmpDir frames fs).2).all
        fun p => !(tmpDir.isPrefixOf p)) = true := by
  unfold createGIFRun
  rcases h : writeFrames save tmpDir frames 0 (tmpDir :: fs) with ⟨r, fs2⟩
  cases r with
  | error e => simp [h, cleanupDir_clean]
  | ok u =>
    cases encodeOk with
    | true => simp [h, cleanupDir_clean]
    | false => simp [h, cleanupDir_clean]

lemma restyleGo_always_loading (upstream : Nat → HFResp)
    (h : ∀ i, ∃ w m, upstream i = HFResp.err (some 503) w m) :
    ∀ rem i, restyleGo upstream i rem = (.unavailable, i + rem) := by
  intro rem
  induction rem with
  | zero => intro i; simp [restyleGo]
  | succ n ih =>
    intro i
    obtain ⟨w, m, hm⟩ := h i
    show restyleGo upstream i (n + 1) = (.unavailable, i + (n + 1))
    rw [show restyleGo upstream i (n + 1)
        = match generateAIImage (upstream i) with
          | .success img => (.done img, i + 1)
          | .failure msg => (.failed msg, i + 1)
          | .loading _ => restyleGo upstream (i + 1) n from rfl]
    rw [hm]
    show restyleGo upstream (i + 1) n = (.unavailable, i + (n + 1))
    rw [ih (i + 1), show i + 1 + n = i + (n + 1) by omega]

/-- C2: against an endpoint that reports the transient 503 model-loading
condition on every attempt, the restyle retry driver terminates in the
distinct `unavailable` state after exactly the configured retry-ceiling
number of attempts, never more, and that state is a different terminal
state from any hard failure. -/
theorem restyle_unavailable_at_ceiling (upstream : Nat → HFResp) (ceiling : Nat)
    (h : ∀ i, ∃ w m, upstream i = HFResp.err (some 503) w m) :
    restyleRun upstream ceiling = (.unavailable, ceiling)
      ∧ ∀ msg, (RestyleOutcome.unavailable : RestyleOutcome) ≠ .failed msg := by
  constructor
  · have := restyleGo_always_loading upstream h ceiling 0
    simpa [restyleRun] using this
  · intro msg hmsg
    cases hmsg

/-- An endpoint stuck in the model-loading state forever. -/
def alwaysLoading : Nat → HFResp := fun _ => .err (some 503) (some 5) "Service Unavailable"

theorem restyle_unavailable_at_ceiling_witness :
    (∀ i, ∃ w m, alwaysLoading i = HFResp.err (some 503) w m)
      ∧ (restyleRun alwaysLoading 3 = (.unavailable, 3)
          ∧ ∀ msg, (RestyleOutcome.unavailable : RestyleOutcome) ≠ .failed msg) :=
  ⟨fun i => ⟨some 5, "Service Unavailable", rfl⟩,
    restyle_unavailable_at_ceiling alwaysLoading 3
      (fun i => ⟨some 5, "Service Unavailable", rfl⟩)⟩

/-- A five-frame input for the strip composer. -/
def fiveFrames : List Bytes := [[0], [1], [2], [3], [4]]

/-- C9 counterexample: with five frames the strip output is NOT
identical to the composite of only the first four — the canvas height
still counts all five frames (2680 vs 2180), leaving a blank slot. -/
theorem excess_frames_change_output :
    createPhotoStrip fiveFrames {} "d" ≠ createPhotoStrip (fiveFrames.take 4) {} "d" := by
  intro h
  have hh := congrArg StripSpec.height h
  simp [createPhotoStrip, fiveFrames] at hh

/-- C9 (amended): the strip composer is total (any frame count succeeds);
only the first four frames are composited (frames beyond the fourth get
no slot), and the canvas height follows
`480·n + 20·(n+1) + 160` for the FULL input length n — proportionally
shorter for fewer than four frames, but still growing past four, so a
longer input is not identical to its first-four composite. -/
theorem strip_composer_takes_first_four (photos : List Bytes) (br : Branding) (today : String) :
    (createPhotoStrip photos br today).frames = photos.take 4
      ∧ (createPhotoStrip photos br today).slots.length = min photos.length 4
      ∧ (createPhotoStrip photos br today).height
          = 480 * photos.length + 20 * (photos.length + 1) + 160
      ∧ (createPhotoStrip photos br today).width = 640 := by
  refine ⟨rfl, ?_, ?_, rfl⟩
  · simp [createPhotoStrip]
  · simp [createPhotoStrip]

/-- C10 counterexample: an unknown style key is NOT indistinguishable
from an explicit request for the default style — the success result
echoes the raw key in `styleKey`, so the two results differ. -/
theorem unknown_key_distinguishable :
    lookupStyle "unknownstyle" = none
      ∧ genResultMeta "unknownstyle" ≠ genResultMeta "anime" := by
  exact ⟨by decide, by decide⟩

/-- C10 (amended): a style key absent from the static table raises no
validation error: `generateAIImage` silently substitutes the default
anime preset and the success result reports the substituted style name,
but it echoes the originally requested key in `styleKey`, which keeps
an unknown key distinguishable from an explicit default request. -/
theorem unknown_key_falls_back_to_anime (k : String) (h : lookupStyle k = none) :
    selectStyle k = animeStyle
      ∧ (genResultMeta k).style = "Anime Art"
      ∧ (genResultMeta k).styleKey = k := by
  refine ⟨?_, ?_, rfl⟩
  · simp [selectStyle, h]
  · simp [genResultMeta, selectStyle, h, animeStyle]

theorem unknown_key_falls_back_to_anime_witness :
    lookupStyle "oilpanting" = none
      ∧ (selectStyle "oilpanting" = animeStyle
          ∧ (genResultMeta "oilpanting").style = "Anime Art"
          ∧ (genResultMeta "oilpanting").styleKey = "oilpanting") :=
  ⟨by decide, unknown_key_falls_back_to_anime "oilpanting" (by decide)⟩
